import Mathlib

/-!
Vulkan bootstrap of `src/template/main.cpp` (class `Template`).

A shallow embedding of the decision logic of the `Template` class: layer
inspection (`isLayerSupport`), the instance description built by
`initVulkanInstance`, device scoring (`deviceScore`), queue family lookup
(`findGPUQueue`) and device selection (`initDevice`).

Modelling conventions.

* Every call into GLFW or the Vulkan loader is a field of `Driver`; a query
  called twice with the same handle answers the same both times.
* An iterator into a `std::vector` is its distance from `begin`, so `end` is
  the length of the vector.
* A thrown `std::runtime_error` is `Except.error` carrying the `what()` text.
* Text written to `cout` and `cerr` is not part of the state and is left out.
* `std::sort` is a parameter of `initDevice`; `StdSortSpec` is the contract the
  C++ standard gives it (a permutation of the input, ordered by the
  comparator, with no promise about the relative order of equivalent items),
  and `libstdcxxSort` is the `std::sort` of libstdc++ (GCC 12), function by
  function.
-/

namespace VulkanTutorial

/-! ## Types and constants of the Vulkan headers -/

/-- The enumeration `VkPhysicalDeviceType` of `vulkan_core.h`. -/
inductive VkPhysicalDeviceType where
  | VK_PHYSICAL_DEVICE_TYPE_OTHER
  | VK_PHYSICAL_DEVICE_TYPE_INTEGRATED_GPU
  | VK_PHYSICAL_DEVICE_TYPE_DISCRETE_GPU
  | VK_PHYSICAL_DEVICE_TYPE_VIRTUAL_GPU
  | VK_PHYSICAL_DEVICE_TYPE_CPU
  deriving DecidableEq, Repr

open VkPhysicalDeviceType

/-- Bit `VK_QUEUE_GRAPHICS_BIT` of `VkQueueFlagBits` (value `0x1` in `vulkan_core.h`). -/
def VK_QUEUE_GRAPHICS_BIT : Nat := 1

/-- Bit `VK_QUEUE_COMPUTE_BIT` of `VkQueueFlagBits` (value `0x2` in `vulkan_core.h`). -/
def VK_QUEUE_COMPUTE_BIT : Nat := 2

/-- The result code `VkResult`; only the comparison with `VK_SUCCESS` is used. -/
abbrev VkResult := Int

/-- Result code `VK_SUCCESS`. -/
def VK_SUCCESS : VkResult := 0

/-- Result code `VK_ERROR_LAYER_NOT_PRESENT`. -/
def VK_ERROR_LAYER_NOT_PRESENT : VkResult := -6

/-- The macro `VK_EXT_DEBUG_UTILS_EXTENSION_NAME`. -/
def VK_EXT_DEBUG_UTILS_EXTENSION_NAME : String := "VK_EXT_debug_utils"

/-- The fields of `VkQueueFamilyProperties` the program reads; `queueFlags` is a bit mask. -/
structure VkQueueFamilyProperties where
  queueFlags : Nat
  queueCount : Nat
  deriving DecidableEq, Repr

/-- The fields of `VkPhysicalDeviceProperties` the program reads. -/
structure VkPhysicalDeviceProperties where
  deviceType : VkPhysicalDeviceType
  deviceName : String
  deriving DecidableEq, Repr

/-- The field of `VkPhysicalDeviceFeatures` the program reads; a `VkBool32`, true when non-zero. -/
structure VkPhysicalDeviceFeatures where
  tessellationShader : Nat
  deriving DecidableEq, Repr

/-- The field of `VkLayerProperties` the program reads. -/
structure VkLayerProperties where
  layerName : String
  deriving DecidableEq, Repr

/-- A `VkPhysicalDevice` handle. -/
abbrev VkPhysicalDevice := Nat

/-- What `createDebugInfo` fills into `VkDebugUtilsMessengerCreateInfoEXT`. -/
structure VkDebugUtilsMessengerCreateInfoEXT where
  messageSeverity : Nat
  messageType : Nat
  deriving DecidableEq, Repr

/-- The fields of `VkInstanceCreateInfo` set by `initVulkanInstance`. -/
structure VkInstanceCreateInfo where
  pApplicationName : String
  enabledExtensionCount : Nat
  ppEnabledExtensionNames : List String
  enabledLayerCount : Nat
  ppEnabledLayerNames : Option (List String)
  pNext : Option VkDebugUtilsMessengerCreateInfoEXT
  deriving DecidableEq, Repr

/-- The fields of `VkDeviceQueueCreateInfo` set at the end of `initDevice`. -/
structure VkDeviceQueueCreateInfo where
  queueFamilyIndex : Nat
  queueCount : Nat
  deriving DecidableEq, Repr

/-! ## The environment: GLFW and the Vulkan loader -/

/-- The answers of the external calls made by `Template`. -/
structure Driver where
  glfwGetRequiredInstanceExtensions : List String
  vkEnumerateInstanceLayerProperties : List VkLayerProperties
  vkCreateInstance : VkInstanceCreateInfo → VkResult
  vkCreateDebugUtilsMessengerEXT : VkDebugUtilsMessengerCreateInfoEXT → VkResult
  vkEnumeratePhysicalDevices : List VkPhysicalDevice
  vkGetPhysicalDeviceProperties : VkPhysicalDevice → VkPhysicalDeviceProperties
  vkGetPhysicalDeviceFeatures : VkPhysicalDevice → VkPhysicalDeviceFeatures
  vkGetPhysicalDeviceQueueFamilyProperties : VkPhysicalDevice → List VkQueueFamilyProperties

/-- The data members of `Template` that the bootstrap reads or writes. -/
structure Template where
  mTitle : String
  mDebug : Bool
  mVulkan : Bool
  mDebugMessenger : Bool
  mPhisicalDevice : Option VkPhysicalDevice
  deriving DecidableEq, Repr

/-! ## Standard library algorithms -/

/-- The algorithm `std::find_if`: the position of the first element satisfying `p`, or the
end position (the length) when there is none. -/
def find_if {α : Type} (p : α → Bool) : List α → Nat
  | [] => 0
  | x :: xs => if p x then 0 else find_if p xs + 1

/-- The C function `strcmp` on the characters before the terminating NUL (a name holds no
NUL character, and the end of the list stands for the NUL): zero when the two strings agree,
otherwise the difference of the first two characters that differ. The C standard fixes only
the sign of a non-zero result, and the program only tests the result against zero. -/
def strcmp : List Char → List Char → Int
  | [], [] => 0
  | [], b :: _ => 0 - (b.toNat : Int)
  | a :: _, [] => (a.toNat : Int)
  | a :: as, b :: bs => if a = b then strcmp as bs else (a.toNat : Int) - (b.toNat : Int)

/-! ## Member functions of `Template` -/

/-- Member `enumerateQueueFamilyProperties`. -/
def enumerateQueueFamilyProperties (drv : Driver) (device : VkPhysicalDevice) :
    List VkQueueFamilyProperties :=
  drv.vkGetPhysicalDeviceQueueFamilyProperties device

/-- The lambda of `findGPUQueue`: `(family.queueFlags & VK_QUEUE_GRAPHICS_BIT) != 0`. -/
def isGraphicsFamily (family : VkQueueFamilyProperties) : Bool :=
  (family.queueFlags &&& VK_QUEUE_GRAPHICS_BIT) != 0

/-- Member `findGPUQueue(first, last)` on the range holding `families`. -/
def findGPUQueue (families : List VkQueueFamilyProperties) : Nat :=
  find_if isGraphicsFamily families

/-- Member `deviceScore`. -/
def deviceScore (drv : Driver) (device : VkPhysicalDevice) : Int :=
  let feature := drv.vkGetPhysicalDeviceFeatures device
  let properties := drv.vkGetPhysicalDeviceProperties device
  let score : Int := 0
  let score := if properties.deviceType = VK_PHYSICAL_DEVICE_TYPE_DISCRETE_GPU
    then score + 1000 else score
  let score := if properties.deviceType = VK_PHYSICAL_DEVICE_TYPE_INTEGRATED_GPU
    then score + 1000 else score
  let families := enumerateQueueFamilyProperties drv device
  if findGPUQueue families = families.length then 0
  else
    let score := if feature.tessellationShader ≠ 0 then score + 1000 else score
    score

/-- Member `createDebugInfo`: verbose, warning and error severities (`0x1 | 0x100 | 0x1000`),
general, validation and performance message types (`0x1 | 0x2 | 0x4`). -/
def createDebugInfo : VkDebugUtilsMessengerCreateInfoEXT :=
  { messageSeverity := 0x1 ||| 0x100 ||| 0x1000
    messageType := 0x1 ||| 0x2 ||| 0x4 }

/-- Member `enumerateVulkanLayers`. -/
def enumerateVulkanLayers (drv : Driver) : List VkLayerProperties :=
  drv.vkEnumerateInstanceLayerProperties

/-- Member `isLayerSupport`. The lambda given to `find_if` returns the `int` result of
`strcmp` converted to `bool`, which is true when the result is not zero. -/
def isLayerSupport (drv : Driver) (requestedLayer : String) : Bool :=
  let layers := enumerateVulkanLayers drv
  let validationLayer :=
    find_if (fun layer => strcmp requestedLayer.toList layer.layerName.toList != 0) layers
  validationLayer != layers.length

/-- The local constant `VALIDATION_LAYER` of `initVulkanInstance` and
`isValidationLayerEnabled`. -/
def VALIDATION_LAYER : String := "VK_LAYER_KHRONOS_validation"

/-- Member `isValidationLayerEnabled`. -/
def isValidationLayerEnabled (drv : Driver) (_self : Template) : Bool :=
  isLayerSupport drv VALIDATION_LAYER

/-- Member `getWindowsRequiredExtensions`. -/
def getWindowsRequiredExtensions (drv : Driver) (self : Template) : List String :=
  let extensions := drv.glfwGetRequiredInstanceExtensions
  if isValidationLayerEnabled drv self then
    extensions ++ [VK_EXT_DEBUG_UTILS_EXTENSION_NAME]
  else extensions

/-- The `VkInstanceCreateInfo` that `initVulkanInstance` hands to `vkCreateInstance`. -/
def instanceCreateInfo (drv : Driver) (self : Template) : VkInstanceCreateInfo :=
  let requiredWindowExtensions := getWindowsRequiredExtensions drv self
  let layers := [VALIDATION_LAYER]
  let useValidation := isLayerSupport drv VALIDATION_LAYER && self.mDebug
  { pApplicationName := self.mTitle
    enabledExtensionCount := requiredWindowExtensions.length
    ppEnabledExtensionNames := requiredWindowExtensions
    enabledLayerCount := if useValidation then layers.length else 0
    ppEnabledLayerNames := if useValidation then some layers else none
    pNext := if self.mDebug then some createDebugInfo else none }

/-- Member `initVulkanInstance`. -/
def initVulkanInstance (drv : Driver) (self : Template) : Except String Template :=
  if drv.vkCreateInstance (instanceCreateInfo drv self) ≠ VK_SUCCESS then
    Except.error "Unable to create the Vulkan instance"
  else Except.ok { self with mVulkan := true }

/-- Member `setupDebugMessenger`. -/
def setupDebugMessenger (drv : Driver) (self : Template) : Except String Template :=
  let debugInfo := createDebugInfo
  if drv.vkCreateDebugUtilsMessengerEXT debugInfo ≠ VK_SUCCESS then
    Except.error "Unable to initialize debug"
  else Except.ok { self with mDebugMessenger := true }

/-- Member `enumerateDevices`. -/
def enumerateDevices (drv : Driver) : List VkPhysicalDevice :=
  drv.vkEnumeratePhysicalDevices

/-- The comparator handed to `std::sort` in `initDevice`. -/
def scoreGreater (drv : Driver) (device1 device2 : VkPhysicalDevice) : Bool :=
  decide (deviceScore drv device1 > deviceScore drv device2)

/-- Member `initDevice`, with `sort` standing for `std::sort`. On success it gives the
object with `mPhisicalDevice` set, and the queue description it has filled in. `std::sort`
works in place, so the sorted vector of a non-empty vector has a first element; the branch
for an empty sorted list is there only because `sort` is a parameter here. -/
def initDevice (sort : (VkPhysicalDevice → VkPhysicalDevice → Bool) →
      List VkPhysicalDevice → List VkPhysicalDevice)
    (drv : Driver) (self : Template) : Except String (Template × VkDeviceQueueCreateInfo) :=
  let devices := enumerateDevices drv
  if devices.isEmpty then Except.error "No Vulkan device found!"
  else
    match sort (scoreGreater drv) devices with
    | [] => Except.error "std::sort changed the size of the vector"
    | first :: _ =>
      let self := { self with mPhisicalDevice := some first }
      if deviceScore drv first = 0 then
        Except.error "No suitable GPU device found"
      else
        let queues := enumerateQueueFamilyProperties drv first
        let gpuQueue := findGPUQueue queues
        Except.ok (self, { queueFamilyIndex := gpuQueue, queueCount := 1 })

/-- Member `initVulkan`, run by the constructor after `initWindow`. -/
def initVulkan (sort : (VkPhysicalDevice → VkPhysicalDevice → Bool) →
      List VkPhysicalDevice → List VkPhysicalDevice)
    (drv : Driver) (self : Template) : Except String (Template × VkDeviceQueueCreateInfo) := do
  let self ← initVulkanInstance drv self
  let self ← setupDebugMessenger drv self
  initDevice sort drv self

/-- The constructor `Template(title, width, height, debug)` up to the end of `initVulkan`. -/
def construct (sort : (VkPhysicalDevice → VkPhysicalDevice → Bool) →
      List VkPhysicalDevice → List VkPhysicalDevice)
    (drv : Driver) (title : String) (debug : Bool) :
    Except String (Template × VkDeviceQueueCreateInfo) :=
  initVulkan sort drv
    { mTitle := title, mDebug := debug, mVulkan := false, mDebugMessenger := false,
      mPhisicalDevice := none }

/-! ## The contract of `std::sort` -/

/-- The requirement `Compare` of the C++ standard: a strict weak ordering. -/
structure IsStrictWeakOrdering {α : Type} (comp : α → α → Bool) : Prop where
  irrefl : ∀ a, comp a a = false
  trans : ∀ a b c, comp a b = true → comp b c = true → comp a c = true
  incomp_trans : ∀ a b c, comp a b = false → comp b a = false → comp b c = false →
    comp c b = false → comp a c = false ∧ comp c a = false

/-- What the C++ standard promises of `std::sort` for a strict weak ordering: the result
holds the same elements and no element is ordered before an earlier one. It promises nothing
on the relative order of equivalent elements. -/
structure StdSortSpec {α : Type} (sort : (α → α → Bool) → List α → List α) : Prop where
  perm : ∀ comp l, IsStrictWeakOrdering comp → (sort comp l).Perm l
  sorted : ∀ comp l, IsStrictWeakOrdering comp →
    (sort comp l).Pairwise (fun a b => comp b a = false)

/-- A sort that keeps equivalent elements in their input order (what `std::stable_sort`
promises): for every `x` the elements equivalent to `x` come out in the order they went in. -/
def KeepsEquivalentOrder {α : Type} (sort : (α → α → Bool) → List α → List α) : Prop :=
  ∀ comp l x, IsStrictWeakOrdering comp →
    (sort comp l).filter (fun y => !comp x y && !comp y x) =
      l.filter (fun y => !comp x y && !comp y x)

/-- Insertion sort by `comp`, keeping equivalent elements in input order. -/
def insertionSortBy {α : Type} (comp : α → α → Bool) (l : List α) : List α :=
  List.insertionSort (fun a b => comp b a = false) l

/-! ## `std::sort` of libstdc++ (`bits/stl_algo.h`, `bits/stl_heap.h`)

The vector is a list and an iterator is a position in it. A read outside the vector, or a
loop that outlives its fuel, gives `none`. -/

/-- The function `std::iter_swap(a, b)`. -/
def iter_swap {α : Type} (v : List α) (a b : Nat) : Option (List α) := do
  let x ← v[a]?
  let y ← v[b]?
  pure ((v.set a y).set b x)

/-- The function `__move_median_to_first(result, a, b, c, comp)`. -/
def move_median_to_first {α : Type} (comp : α → α → Bool) (v : List α)
    (result a b c : Nat) : Option (List α) := do
  let xa ← v[a]?
  let xb ← v[b]?
  let xc ← v[c]?
  if comp xa xb then
    if comp xb xc then iter_swap v result b
    else if comp xa xc then iter_swap v result c
    else iter_swap v result a
  else if comp xa xc then iter_swap v result a
  else if comp xb xc then iter_swap v result c
  else iter_swap v result b

/-- The loop of `__unguarded_linear_insert(last, comp)` after `val` has been read from
`*last`: shift elements that `val` is ordered before, then store `val`. -/
def unguarded_linear_insert_loop {α : Type} (comp : α → α → Bool) (val : α) :
    Nat → List α → Nat → Option (List α)
  | 0, _, _ => none
  | fuel + 1, v, last =>
    if last = 0 then none
    else do
      let next ← v[last - 1]?
      if comp val next then
        unguarded_linear_insert_loop comp val fuel (v.set last next) (last - 1)
      else pure (v.set last val)

/-- The function `__unguarded_linear_insert(last, comp)`. -/
def unguarded_linear_insert {α : Type} (comp : α → α → Bool) (v : List α) (last : Nat) :
    Option (List α) := do
  let val ← v[last]?
  unguarded_linear_insert_loop comp val (v.length + 1) v last

/-- The function `__insertion_sort(first, last, comp)`. The first branch of its loop body is
`move_backward(first, i, i + 1)` followed by `*first = val`. -/
def insertion_sort {α : Type} (comp : α → α → Bool) (v : List α) (first last : Nat) :
    Option (List α) :=
  if first = last then pure v
  else
    (List.range' (first + 1) (last - (first + 1))).foldlM
      (fun v i => do
        let val ← v[i]?
        let front ← v[first]?
        if comp val front then
          pure (v.take first ++ val :: ((v.take i).drop first ++ v.drop (i + 1)))
        else unguarded_linear_insert comp v i) v

/-- The function `__unguarded_insertion_sort(first, last, comp)`. -/
def unguarded_insertion_sort {α : Type} (comp : α → α → Bool) (v : List α)
    (first last : Nat) : Option (List α) :=
  (List.range' first (last - first)).foldlM (fun v i => unguarded_linear_insert comp v i) v

/-- The constant `_S_threshold`. -/
def S_threshold : Nat := 16

/-- The function `__final_insertion_sort(first, last, comp)`. -/
def final_insertion_sort {α : Type} (comp : α → α → Bool) (v : List α) (first last : Nat) :
    Option (List α) :=
  if last - first > S_threshold then do
    let v ← insertion_sort comp v first (first + S_threshold)
    unguarded_insertion_sort comp v (first + S_threshold) last
  else insertion_sort comp v first last

/-- The loop `while (comp(first, pivot)) ++first` of `__unguarded_partition`. -/
def partition_scan_up {α : Type} (comp : α → α → Bool) (v : List α) (pivot : Nat) :
    Nat → Nat → Option Nat
  | 0, _ => none
  | fuel + 1, first => do
    let x ← v[first]?
    let p ← v[pivot]?
    if comp x p then partition_scan_up comp v pivot fuel (first + 1) else pure first

/-- The loop `while (comp(pivot, last)) --last` of `__unguarded_partition`. -/
def partition_scan_down {α : Type} (comp : α → α → Bool) (v : List α) (pivot : Nat) :
    Nat → Nat → Option Nat
  | 0, _ => none
  | fuel + 1, last => do
    let x ← v[last]?
    let p ← v[pivot]?
    if comp p x then
      if last = 0 then none else partition_scan_down comp v pivot fuel (last - 1)
    else pure last

/-- The function `__unguarded_partition(first, last, pivot, comp)`: the vector and the cut
position. -/
def unguarded_partition {α : Type} (comp : α → α → Bool) :
    Nat → List α → Nat → Nat → Nat → Option (List α × Nat)
  | 0, _, _, _, _ => none
  | fuel + 1, v, first, last, pivot => do
    let first ← partition_scan_up comp v pivot (v.length + 1) first
    if last = 0 then none
    else
      let last ← partition_scan_down comp v pivot (v.length + 1) (last - 1)
      if ¬ (first < last) then pure (v, first)
      else
        let v ← iter_swap v first last
        unguarded_partition comp fuel v (first + 1) last pivot

/-- The function `__unguarded_partition_pivot(first, last, comp)`. -/
def unguarded_partition_pivot {α : Type} (comp : α → α → Bool) (v : List α)
    (first last : Nat) : Option (List α × Nat) := do
  let mid := first + (last - first) / 2
  if last = 0 then none
  else
    let v ← move_median_to_first comp v first (first + 1) mid (last - 1)
    unguarded_partition comp (v.length + 1) v (first + 1) last first

/-- The loop of `__push_heap(first, holeIndex, topIndex, value, comp)`. -/
def push_heap_loop {α : Type} (comp : α → α → Bool) (first topIndex : Nat) (value : α) :
    Nat → List α → Nat → Option (List α)
  | 0, _, _ => none
  | fuel + 1, v, holeIndex => do
    let parent := (holeIndex - 1) / 2
    if holeIndex > topIndex then
      let p ← v[first + parent]?
      if comp p value then
        push_heap_loop comp first topIndex value fuel (v.set (first + holeIndex) p) parent
      else if first + holeIndex < v.length then pure (v.set (first + holeIndex) value)
      else none
    else if first + holeIndex < v.length then pure (v.set (first + holeIndex) value)
    else none

/-- The first loop of `__adjust_heap`: the vector, `holeIndex` and `secondChild` after it. -/
def adjust_heap_loop {α : Type} (comp : α → α → Bool) (first len : Nat) :
    Nat → List α → Nat → Nat → Option (List α × Nat × Nat)
  | 0, _, _, _ => none
  | fuel + 1, v, holeIndex, secondChild =>
    if secondChild < (len - 1) / 2 then do
      let secondChild := 2 * (secondChild + 1)
      let a ← v[first + secondChild]?
      let b ← v[first + (secondChild - 1)]?
      let secondChild := if comp a b then secondChild - 1 else secondChild
      let c ← v[first + secondChild]?
      if first + holeIndex < v.length then
        adjust_heap_loop comp first len fuel (v.set (first + holeIndex) c) secondChild
          secondChild
      else none
    else pure (v, holeIndex, secondChild)

/-- The function `__adjust_heap(first, holeIndex, len, value, comp)`. The distance
`(len - 2) / 2` is signed and negative for an empty heap. -/
def adjust_heap {α : Type} (comp : α → α → Bool) (v : List α) (first holeIndex len : Nat)
    (value : α) : Option (List α) := do
  let topIndex := holeIndex
  let (v, holeIndex, secondChild) ←
    adjust_heap_loop comp first len (v.length + 1) v holeIndex holeIndex
  if len % 2 = 0 ∧ (secondChild : Int) = Int.tdiv ((len : Int) - 2) 2 then
    let secondChild := 2 * (secondChild + 1)
    let c ← v[first + (secondChild - 1)]?
    if first + holeIndex < v.length then
      push_heap_loop comp first topIndex value (v.length + 1) (v.set (first + holeIndex) c)
        (secondChild - 1)
    else none
  else push_heap_loop comp first topIndex value (v.length + 1) v holeIndex

/-- The function `__pop_heap(first, last, result, comp)`. -/
def pop_heap {α : Type} (comp : α → α → Bool) (v : List α) (first last result : Nat) :
    Option (List α) := do
  let value ← v[result]?
  let top ← v[first]?
  adjust_heap comp (v.set result top) first 0 (last - first) value

/-- The loop of `__make_heap`, from `parent` down to 0. -/
def make_heap_loop {α : Type} (comp : α → α → Bool) (first len : Nat) :
    Nat → List α → Nat → Option (List α)
  | 0, _, _ => none
  | fuel + 1, v, parent => do
    let value ← v[first + parent]?
    let v ← adjust_heap comp v first parent len value
    if parent = 0 then pure v else make_heap_loop comp first len fuel v (parent - 1)

/-- The function `__make_heap(first, last, comp)`. -/
def make_heap {α : Type} (comp : α → α → Bool) (v : List α) (first last : Nat) :
    Option (List α) :=
  if last - first < 2 then pure v
  else make_heap_loop comp first (last - first) (v.length + 1) v ((last - first - 2) / 2)

/-- The function `__sort_heap(first, last, comp)`. -/
def sort_heap {α : Type} (comp : α → α → Bool) (first : Nat) :
    Nat → List α → Nat → Option (List α)
  | 0, _, _ => none
  | fuel + 1, v, last =>
    if last - first > 1 then do
      let v ← pop_heap comp v first (last - 1) (last - 1)
      sort_heap comp first fuel v (last - 1)
    else pure v

/-- The function `__heap_select(first, middle, last, comp)`. -/
def heap_select {α : Type} (comp : α → α → Bool) (v : List α) (first middle last : Nat) :
    Option (List α) := do
  let v ← make_heap comp v first middle
  (List.range' middle (last - middle)).foldlM
    (fun v i => do
      let x ← v[i]?
      let top ← v[first]?
      if comp x top then pop_heap comp v first middle i else pure v) v

/-- The function `__partial_sort(first, middle, last, comp)`. -/
def partial_sort {α : Type} (comp : α → α → Bool) (v : List α) (first middle last : Nat) :
    Option (List α) := do
  let v ← heap_select comp v first middle last
  sort_heap comp first (v.length + 1) v middle

/-- The function `__introsort_loop(first, last, depth_limit, comp)`; each turn of its loop
and each recursive call takes one unit of fuel. -/
def introsort_loop {α : Type} (comp : α → α → Bool) :
    Nat → List α → Nat → Nat → Nat → Option (List α)
  | 0, _, _, _, _ => none
  | fuel + 1, v, first, last, depth_limit =>
    if last - first > S_threshold then
      if depth_limit = 0 then partial_sort comp v first last last
      else do
        let depth_limit := depth_limit - 1
        let (v, cut) ← unguarded_partition_pivot comp v first last
        let v ← introsort_loop comp fuel v cut last depth_limit
        introsort_loop comp fuel v first cut depth_limit
    else pure v

/-- The function `std::__lg(n)`, the floor of the binary logarithm of `n`, by halving. -/
def lg : Nat → Nat → Nat
  | 0, _ => 0
  | fuel + 1, n => if n ≤ 1 then 0 else lg fuel (n / 2) + 1

/-- The function `std::__sort(first, last, comp)` on the whole vector, which `std::sort`
calls. -/
def std_sort {α : Type} (comp : α → α → Bool) (v : List α) : Option (List α) :=
  if v.length = 0 then pure v
  else do
    let v ← introsort_loop comp (v.length + 1) v 0 v.length (lg v.length v.length * 2)
    final_insertion_sort comp v 0 v.length

/-- The algorithm `std::sort` of libstdc++ as a list function; the input is returned
unchanged where `std_sort` gives no result. -/
def libstdcxxSort {α : Type} (comp : α → α → Bool) (v : List α) : List α :=
  (std_sort comp v).getD v

/-! ## Example environments -/

/-- A queue family with `VK_QUEUE_COMPUTE_BIT` only. -/
def computeOnlyFamily : VkQueueFamilyProperties := { queueFlags := VK_QUEUE_COMPUTE_BIT, queueCount := 1 }

/-- A queue family with `VK_QUEUE_GRAPHICS_BIT | VK_QUEUE_COMPUTE_BIT`. -/
def graphicsComputeFamily : VkQueueFamilyProperties :=
  { queueFlags := VK_QUEUE_GRAPHICS_BIT ||| VK_QUEUE_COMPUTE_BIT, queueCount := 1 }

/-- A loader whose calls all succeed, with the given layers and devices. -/
def mkDriver (layers : List String) (devices : List VkPhysicalDevice)
    (properties : VkPhysicalDevice → VkPhysicalDeviceProperties)
    (features : VkPhysicalDevice → VkPhysicalDeviceFeatures)
    (families : VkPhysicalDevice → List VkQueueFamilyProperties) : Driver :=
  { glfwGetRequiredInstanceExtensions := ["VK_KHR_surface"]
    vkEnumerateInstanceLayerProperties := layers.map (fun n => { layerName := n })
    vkCreateInstance := fun _ => VK_SUCCESS
    vkCreateDebugUtilsMessengerEXT := fun _ => VK_SUCCESS
    vkEnumeratePhysicalDevices := devices
    vkGetPhysicalDeviceProperties := properties
    vkGetPhysicalDeviceFeatures := features
    vkGetPhysicalDeviceQueueFamilyProperties := families }

/-- Two devices: device 0 integrated with tessellation, device 1 discrete without, both with a
graphics queue family. -/
def scenarioDriver : Driver :=
  mkDriver [] [0, 1]
    (fun d => if d = 0 then { deviceType := VK_PHYSICAL_DEVICE_TYPE_INTEGRATED_GPU, deviceName := "igpu" }
      else { deviceType := VK_PHYSICAL_DEVICE_TYPE_DISCRETE_GPU, deviceName := "dgpu" })
    (fun d => if d = 0 then { tessellationShader := 1 } else { tessellationShader := 0 })
    (fun _ => [computeOnlyFamily, graphicsComputeFamily])

/-- An object as the constructor leaves it before `initVulkan`. -/
def freshTemplate (debug : Bool) : Template :=
  { mTitle := "template", mDebug := debug, mVulkan := false, mDebugMessenger := false,
    mPhisicalDevice := none }

/-- Seventeen devices 0 to 16, all with a graphics queue family and without tessellation:
devices 0 and 1 are discrete GPUs (score 1000), the other fifteen are of another class
(score 0). -/
def seventeenDriver : Driver :=
  mkDriver [] (List.range 17)
    (fun d => if d < 2
      then { deviceType := VK_PHYSICAL_DEVICE_TYPE_DISCRETE_GPU, deviceName := "dgpu" }
      else { deviceType := VK_PHYSICAL_DEVICE_TYPE_OTHER, deviceName := "other" })
    (fun _ => { tessellationShader := 0 })
    (fun _ => [graphicsComputeFamily])

/-- Three devices: device 0 of another class (score 0), devices 1 and 2 discrete; all three
with a graphics queue family and no tessellation. Scores 0, 1000, 1000. -/
def lateTieDriver : Driver :=
  mkDriver [] [0, 1, 2]
    (fun d => if d = 0 then { deviceType := VK_PHYSICAL_DEVICE_TYPE_OTHER, deviceName := "other" }
      else { deviceType := VK_PHYSICAL_DEVICE_TYPE_DISCRETE_GPU, deviceName := "dgpu" })
    (fun _ => { tessellationShader := 0 })
    (fun _ => [graphicsComputeFamily])

/-- A single discrete device with tessellation whose only queue family is compute-only. -/
def noGraphicsDriver : Driver :=
  mkDriver [] [0]
    (fun _ => { deviceType := VK_PHYSICAL_DEVICE_TYPE_DISCRETE_GPU, deviceName := "dgpu" })
    (fun _ => { tessellationShader := 1 })
    (fun _ => [computeOnlyFamily])

/-- The loader of `scenarioDriver` with the given supported layers; its calls all succeed. -/
def layersDriver (layers : List String) : Driver :=
  { scenarioDriver with
    vkEnumerateInstanceLayerProperties := layers.map (fun n => { layerName := n }) }

/-- A loader like `layersDriver` whose `vkCreateInstance` answers
`VK_ERROR_LAYER_NOT_PRESENT` when a requested layer is not among the supported ones. -/
def strictLayersDriver (layers : List String) : Driver :=
  { layersDriver layers with
    vkCreateInstance := fun createInfo =>
      if (createInfo.ppEnabledLayerNames.getD []).all (fun n => layers.contains n)
      then VK_SUCCESS else VK_ERROR_LAYER_NOT_PRESENT }

/-! ## `std::find_if` -/

theorem find_if_le_length {α : Type} (p : α → Bool) (l : List α) :
    find_if p l ≤ l.length := by
  induction l with
  | nil => simp [find_if]
  | cons x xs ih =>
    simp only [find_if, List.length_cons]
    split <;> omega

theorem find_if_eq_length_iff {α : Type} (p : α → Bool) (l : List α) :
    find_if p l = l.length ↔ ∀ x ∈ l, p x = false := by
  induction l with
  | nil => simp [find_if]
  | cons x xs ih =>
    simp only [find_if, List.length_cons, List.mem_cons, forall_eq_or_imp]
    by_cases hx : p x = true
    · simp [hx]
    · simp only [Bool.not_eq_true] at hx
      simp [hx, ih]

theorem find_if_before {α : Type} (p : α → Bool) (l : List α) (j : Nat)
    (hj : j < find_if p l) : ∃ x, l[j]? = some x ∧ p x = false := by
  induction l generalizing j with
  | nil => simp [find_if] at hj
  | cons x xs ih =>
    simp only [find_if] at hj
    by_cases hx : p x = true
    · simp [hx] at hj
    · simp only [Bool.not_eq_true] at hx
      simp only [hx, Bool.false_eq_true, if_false] at hj
      cases j with
      | zero => exact ⟨x, by simp, hx⟩
      | succ j =>
        obtain ⟨y, hy, hpy⟩ := ih j (by omega)
        exact ⟨y, by simpa using hy, hpy⟩

theorem find_if_at {α : Type} (p : α → Bool) (l : List α)
    (h : find_if p l < l.length) : ∃ x, l[find_if p l]? = some x ∧ p x = true := by
  induction l with
  | nil => simp at h
  | cons x xs ih =>
    simp only [find_if, List.length_cons] at h ⊢
    by_cases hx : p x = true
    · simp [hx]
    · simp only [Bool.not_eq_true] at hx
      simp only [hx, Bool.false_eq_true, if_false] at h ⊢
      obtain ⟨y, hy, hpy⟩ := ih (by omega)
      exact ⟨y, by simpa using hy, hpy⟩

/-! ## Queue families and scores -/

theorem isGraphicsFamily_eq_true (f : VkQueueFamilyProperties) :
    isGraphicsFamily f = true ↔ f.queueFlags &&& VK_QUEUE_GRAPHICS_BIT ≠ 0 := by
  simp [isGraphicsFamily]

theorem isGraphicsFamily_eq_false (f : VkQueueFamilyProperties) :
    isGraphicsFamily f = false ↔ f.queueFlags &&& VK_QUEUE_GRAPHICS_BIT = 0 := by
  simp [isGraphicsFamily]

theorem findGPUQueue_eq_length_iff (families : List VkQueueFamilyProperties) :
    findGPUQueue families = families.length ↔
      ∀ f ∈ families, f.queueFlags &&& VK_QUEUE_GRAPHICS_BIT = 0 := by
  unfold findGPUQueue
  rw [find_if_eq_length_iff]
  simp only [isGraphicsFamily_eq_false]

theorem deviceScore_eq (drv : Driver) (device : VkPhysicalDevice) :
    deviceScore drv device =
      if ∀ f ∈ drv.vkGetPhysicalDeviceQueueFamilyProperties device,
          f.queueFlags &&& VK_QUEUE_GRAPHICS_BIT = 0 then 0
      else
        (if (drv.vkGetPhysicalDeviceProperties device).deviceType =
            VK_PHYSICAL_DEVICE_TYPE_DISCRETE_GPU then 1000 else 0) +
        (if (drv.vkGetPhysicalDeviceProperties device).deviceType =
            VK_PHYSICAL_DEVICE_TYPE_INTEGRATED_GPU then 1000 else 0) +
        (if (drv.vkGetPhysicalDeviceFeatures device).tessellationShader ≠ 0
          then 1000 else 0) := by
  unfold deviceScore
  simp only [enumerateQueueFamilyProperties, findGPUQueue_eq_length_iff]
  split
  · rfl
  · split <;> split <;> split <;> simp_all

theorem deviceScore_nonneg (drv : Driver) (device : VkPhysicalDevice) :
    0 ≤ deviceScore drv device := by
  rw [deviceScore_eq]
  split
  · exact le_refl _
  · split <;> split <;> split <;> omega

/-- C1: `deviceScore` is 0 when no queue family of the device has the graphics bit, and
otherwise 1000 for a discrete GPU, plus 1000 for an integrated GPU, plus 1000 when the
tessellation-shader feature is present; the result is one of 0, 1000, 2000. -/
theorem deviceScore_spec (drv : Driver) (device : VkPhysicalDevice) :
    deviceScore drv device =
      (if ∀ f ∈ drv.vkGetPhysicalDeviceQueueFamilyProperties device,
          f.queueFlags &&& VK_QUEUE_GRAPHICS_BIT = 0 then 0
      else
        (if (drv.vkGetPhysicalDeviceProperties device).deviceType =
            VK_PHYSICAL_DEVICE_TYPE_DISCRETE_GPU then 1000 else 0) +
        (if (drv.vkGetPhysicalDeviceProperties device).deviceType =
            VK_PHYSICAL_DEVICE_TYPE_INTEGRATED_GPU then 1000 else 0) +
        (if (drv.vkGetPhysicalDeviceFeatures device).tessellationShader ≠ 0
          then 1000 else 0)) ∧
    (deviceScore drv device = 0 ∨ deviceScore drv device = 1000 ∨
      deviceScore drv device = 2000) := by
  refine ⟨deviceScore_eq drv device, ?_⟩
  rw [deviceScore_eq]
  split
  · exact Or.inl rfl
  · cases (drv.vkGetPhysicalDeviceProperties device).deviceType <;>
      by_cases ht : (drv.vkGetPhysicalDeviceFeatures device).tessellationShader = 0 <;>
      simp [ht]

/-- C6: `findGPUQueue` returns the position of the first queue family whose flags contain
the graphics bit: every family before that position lacks the bit, the family at that
position (when there is one) has it, and the result is the end position exactly when no
family has the bit; for `[compute-only, graphics|compute]` the result is 1. -/
theorem findGPUQueue_first_graphics (families : List VkQueueFamilyProperties) :
    findGPUQueue families ≤ families.length ∧
    (∀ j, j < findGPUQueue families →
      ∃ f, families[j]? = some f ∧ f.queueFlags &&& VK_QUEUE_GRAPHICS_BIT = 0) ∧
    (findGPUQueue families < families.length →
      ∃ f, families[findGPUQueue families]? = some f ∧
        f.queueFlags &&& VK_QUEUE_GRAPHICS_BIT ≠ 0) ∧
    (findGPUQueue families = families.length ↔
      ∀ f ∈ families, f.queueFlags &&& VK_QUEUE_GRAPHICS_BIT = 0) ∧
    findGPUQueue [computeOnlyFamily, graphicsComputeFamily] = 1 := by
  refine ⟨find_if_le_length _ _, ?_, ?_, findGPUQueue_eq_length_iff families, by decide⟩
  · intro j hj
    obtain ⟨f, hf, hp⟩ := find_if_before isGraphicsFamily families j hj
    exact ⟨f, hf, (isGraphicsFamily_eq_false f).1 hp⟩
  · intro h
    obtain ⟨f, hf, hp⟩ := find_if_at isGraphicsFamily families h
    exact ⟨f, hf, (isGraphicsFamily_eq_true f).1 hp⟩

/-! ## `std::sort` -/

theorem scoreGreater_eq_true (drv : Driver) (a b : VkPhysicalDevice) :
    scoreGreater drv a b = true ↔ deviceScore drv b < deviceScore drv a := by
  simp [scoreGreater]

theorem scoreGreater_eq_false (drv : Driver) (a b : VkPhysicalDevice) :
    scoreGreater drv a b = false ↔ deviceScore drv a ≤ deviceScore drv b := by
  simp [scoreGreater]

theorem scoreGreater_strictWeak (drv : Driver) : IsStrictWeakOrdering (scoreGreater drv) where
  irrefl a := by simp [scoreGreater]
  trans a b c hab hbc := by
    rw [scoreGreater_eq_true] at hab hbc
    rw [scoreGreater_eq_true]
    omega
  incomp_trans a b c h1 h2 h3 h4 := by
    rw [scoreGreater_eq_false] at h1 h2 h3 h4
    rw [scoreGreater_eq_false, scoreGreater_eq_false]
    constructor <;> omega

theorem IsStrictWeakOrdering.asymm {α : Type} {comp : α → α → Bool}
    (h : IsStrictWeakOrdering comp) (a b : α) (hab : comp a b = true) : comp b a = false := by
  by_contra hba
  simp only [Bool.not_eq_false] at hba
  have := h.trans a b a hab hba
  rw [h.irrefl a] at this
  exact Bool.false_ne_true this

theorem IsStrictWeakOrdering.total {α : Type} {comp : α → α → Bool}
    (h : IsStrictWeakOrdering comp) (a b : α) : comp b a = false ∨ comp a b = false := by
  cases hba : comp b a with
  | false => exact Or.inl rfl
  | true => exact Or.inr (h.asymm b a hba)

theorem IsStrictWeakOrdering.negTrans {α : Type} {comp : α → α → Bool}
    (h : IsStrictWeakOrdering comp) (a b c : α)
    (hba : comp b a = false) (hcb : comp c b = false) : comp c a = false := by
  by_contra hca
  simp only [Bool.not_eq_false] at hca
  cases hab : comp a b with
  | true =>
    have := h.trans c a b hca hab
    rw [hcb] at this
    exact Bool.false_ne_true this
  | false =>
    cases hbc : comp b c with
    | true =>
      have := h.trans b c a hbc hca
      rw [hba] at this
      exact Bool.false_ne_true this
    | false =>
      have := (h.incomp_trans a b c hab hba hbc hcb).2
      rw [hca] at this
      exact Bool.false_ne_true this.symm

theorem insertionSort_sorted_of_strictWeak {α : Type} (comp : α → α → Bool)
    (h : IsStrictWeakOrdering comp) (l : List α) :
    (List.insertionSort (fun a b => comp b a = false) l).Pairwise
      (fun a b => comp b a = false) := by
  haveI : IsTotal α (fun a b => comp b a = false) := ⟨fun a b => h.total a b⟩
  haveI : IsTrans α (fun a b => comp b a = false) :=
    ⟨fun a b c hab hbc => h.negTrans a b c hab hbc⟩
  exact List.sorted_insertionSort (fun a b => comp b a = false) l

theorem insertionSortBy_spec {α : Type} : StdSortSpec (insertionSortBy (α := α)) where
  perm _ l _ := List.perm_insertionSort _ l
  sorted comp l h := insertionSort_sorted_of_strictWeak comp h l

/-- The first element of a sorted vector is an element of the input that no element of the
input is ordered before. -/
theorem StdSortSpec.head_max {α : Type} {sort : (α → α → Bool) → List α → List α}
    (hs : StdSortSpec sort) (comp : α → α → Bool) (hc : IsStrictWeakOrdering comp)
    (l : List α) (first : α) (rest : List α) (h : sort comp l = first :: rest) :
    first ∈ l ∧ ∀ d ∈ l, comp d first = false := by
  have hperm := hs.perm comp l hc
  have hsorted := hs.sorted comp l hc
  rw [h] at hperm hsorted
  refine ⟨hperm.mem_iff.1 (List.mem_cons_self _ _), fun d hd => ?_⟩
  rcases List.mem_cons.1 (hperm.mem_iff.2 hd) with rfl | hr
  · exact hc.irrefl _
  · exact (List.pairwise_cons.1 hsorted).1 d hr

theorem StdSortSpec.ne_nil {α : Type} {sort : (α → α → Bool) → List α → List α}
    (hs : StdSortSpec sort) (comp : α → α → Bool) (hc : IsStrictWeakOrdering comp)
    (l : List α) (hl : l ≠ []) : ∃ first rest, sort comp l = first :: rest := by
  cases hsl : sort comp l with
  | nil =>
    have hperm := hs.perm comp l hc
    rw [hsl] at hperm
    exact absurd (List.Perm.nil_eq hperm) (Ne.symm hl)
  | cons first rest => exact ⟨first, rest, rfl⟩

/-! ## `initDevice` -/

/-- The run of `initDevice` once the sorted vector is known. -/
theorem initDevice_of_sorted
    (sort : (VkPhysicalDevice → VkPhysicalDevice → Bool) →
      List VkPhysicalDevice → List VkPhysicalDevice)
    (drv : Driver) (self : Template) (first : VkPhysicalDevice) (rest : List VkPhysicalDevice)
    (hne : drv.vkEnumeratePhysicalDevices ≠ [])
    (hs : sort (scoreGreater drv) drv.vkEnumeratePhysicalDevices = first :: rest) :
    initDevice sort drv self =
      if deviceScore drv first = 0 then Except.error "No suitable GPU device found"
      else Except.ok ({ self with mPhisicalDevice := some first },
        { queueFamilyIndex := findGPUQueue (drv.vkGetPhysicalDeviceQueueFamilyProperties first),
          queueCount := 1 }) := by
  unfold initDevice
  simp only [enumerateDevices, enumerateQueueFamilyProperties, List.isEmpty_iff, hne, if_false, hs]

/-- An accepted run of `initDevice` selected the first element of the sorted vector, whose
score is not 0. -/
theorem initDevice_ok_inv
    (sort : (VkPhysicalDevice → VkPhysicalDevice → Bool) →
      List VkPhysicalDevice → List VkPhysicalDevice)
    (drv : Driver) (self : Template) (r : Template × VkDeviceQueueCreateInfo)
    (h : initDevice sort drv self = Except.ok r) :
    ∃ first rest, sort (scoreGreater drv) drv.vkEnumeratePhysicalDevices = first :: rest ∧
      deviceScore drv first ≠ 0 ∧
      r = ({ self with mPhisicalDevice := some first },
        { queueFamilyIndex := findGPUQueue (drv.vkGetPhysicalDeviceQueueFamilyProperties first),
          queueCount := 1 }) := by
  by_cases hne : drv.vkEnumeratePhysicalDevices = []
  · simp [initDevice, enumerateDevices, hne] at h
  · cases hs : sort (scoreGreater drv) drv.vkEnumeratePhysicalDevices with
    | nil => simp [initDevice, enumerateDevices, hne, hs] at h
    | cons first rest =>
      rw [initDevice_of_sorted sort drv self first rest hne hs] at h
      by_cases h0 : deviceScore drv first = 0
      · simp [h0] at h
      · simp only [h0, if_false, Except.ok.injEq] at h
        exact ⟨first, rest, rfl, h0, h.symm⟩

/-- The first element of the sorted device vector is an enumerated device of maximal score. -/
theorem sorted_first_max
    (sort : (VkPhysicalDevice → VkPhysicalDevice → Bool) →
      List VkPhysicalDevice → List VkPhysicalDevice)
    (hsort : StdSortSpec sort) (drv : Driver) (first : VkPhysicalDevice)
    (rest : List VkPhysicalDevice)
    (hs : sort (scoreGreater drv) drv.vkEnumeratePhysicalDevices = first :: rest) :
    first ∈ drv.vkEnumeratePhysicalDevices ∧
      ∀ d ∈ drv.vkEnumeratePhysicalDevices, deviceScore drv d ≤ deviceScore drv first := by
  obtain ⟨hmem, hmax⟩ := hsort.head_max (scoreGreater drv) (scoreGreater_strictWeak drv)
    drv.vkEnumeratePhysicalDevices first rest hs
  exact ⟨hmem, fun d hd => (scoreGreater_eq_false drv d first).1 (hmax d hd)⟩

/-- With a device of non-zero score in the list, `initDevice` accepts the first element of
the sorted vector, an enumerated device of maximal score. -/
theorem initDevice_accepts
    (sort : (VkPhysicalDevice → VkPhysicalDevice → Bool) →
      List VkPhysicalDevice → List VkPhysicalDevice)
    (hsort : StdSortSpec sort) (drv : Driver) (self : Template)
    (hex : ∃ d ∈ drv.vkEnumeratePhysicalDevices, deviceScore drv d ≠ 0) :
    ∃ first rest, sort (scoreGreater drv) drv.vkEnumeratePhysicalDevices = first :: rest ∧
      first ∈ drv.vkEnumeratePhysicalDevices ∧
      (∀ d ∈ drv.vkEnumeratePhysicalDevices, deviceScore drv d ≤ deviceScore drv first) ∧
      0 < deviceScore drv first ∧
      initDevice sort drv self =
        Except.ok ({ self with mPhisicalDevice := some first },
          { queueFamilyIndex :=
              findGPUQueue (drv.vkGetPhysicalDeviceQueueFamilyProperties first),
            queueCount := 1 }) := by
  obtain ⟨d, hd, hd0⟩ := hex
  have hne : drv.vkEnumeratePhysicalDevices ≠ [] := List.ne_nil_of_mem hd
  obtain ⟨first, rest, hs⟩ := hsort.ne_nil (scoreGreater drv) (scoreGreater_strictWeak drv)
    drv.vkEnumeratePhysicalDevices hne
  obtain ⟨hmem, hmax⟩ := sorted_first_max sort hsort drv first rest hs
  have hpos : 0 < deviceScore drv first := by
    have h1 := hmax d hd
    have h2 := deviceScore_nonneg drv d
    omega
  refine ⟨first, rest, hs, hmem, hmax, hpos, ?_⟩
  rw [initDevice_of_sorted sort drv self first rest hne hs]
  simp [ne_of_gt hpos]

/-- C2: when `initDevice` succeeds, the selected device `mPhisicalDevice` is one of the
enumerated devices, its score is greater than 0, and no enumerated device has a greater
score; for the list `[integrated+tessellation+graphics, discrete+graphics]` the scores are
`[2000, 1000]` and candidate 0 is selected. This holds for every `std::sort` meeting the
standard's contract. -/
theorem initDevice_selects_max
    (sort : (VkPhysicalDevice → VkPhysicalDevice → Bool) →
      List VkPhysicalDevice → List VkPhysicalDevice)
    (hsort : StdSortSpec sort) (drv : Driver) (self : Template)
    (r : Template × VkDeviceQueueCreateInfo)
    (h : initDevice sort drv self = Except.ok r) :
    (∃ d, r.1.mPhisicalDevice = some d ∧ d ∈ enumerateDevices drv ∧
      0 < deviceScore drv d ∧
      ∀ d' ∈ enumerateDevices drv, deviceScore drv d' ≤ deviceScore drv d) ∧
    (enumerateDevices scenarioDriver).map (deviceScore scenarioDriver) = [2000, 1000] ∧
    ∃ q, initDevice sort scenarioDriver self =
      Except.ok ({ self with mPhisicalDevice := (enumerateDevices scenarioDriver)[0]? }, q) := by
  refine ⟨?_, by decide, ?_⟩
  · obtain ⟨first, rest, hs, h0, rfl⟩ := initDevice_ok_inv sort drv self r h
    obtain ⟨hmem, hmax⟩ := sorted_first_max sort hsort drv first rest hs
    have hnn := deviceScore_nonneg drv first
    exact ⟨first, rfl, hmem, by omega, hmax⟩
  · obtain ⟨first, rest, _, hmem, hmax, _, hrun⟩ :=
      initDevice_accepts sort hsort scenarioDriver self ⟨0, by decide, by decide⟩
    have hfirst : first = 0 := by
      have hmem' : first = 0 ∨ first = 1 := by
        simpa [scenarioDriver, mkDriver] using hmem
      rcases hmem' with rfl | rfl
      · rfl
      · exact absurd (hmax 0 (by decide)) (by decide)
    subst hfirst
    exact ⟨_, hrun⟩

/-- Witness for C2: the scenario list with an insertion sort. -/
theorem initDevice_selects_max_witness :
    (∃ d, (({ freshTemplate true with mPhisicalDevice := some 0 },
        { queueFamilyIndex := 1, queueCount := 1 }) :
        Template × VkDeviceQueueCreateInfo).1.mPhisicalDevice = some d ∧
      d ∈ enumerateDevices scenarioDriver ∧ 0 < deviceScore scenarioDriver d ∧
      ∀ d' ∈ enumerateDevices scenarioDriver,
        deviceScore scenarioDriver d' ≤ deviceScore scenarioDriver d) ∧
    (enumerateDevices scenarioDriver).map (deviceScore scenarioDriver) = [2000, 1000] ∧
    ∃ q, initDevice insertionSortBy scenarioDriver (freshTemplate true) =
      Except.ok ({ freshTemplate true with
        mPhisicalDevice := (enumerateDevices scenarioDriver)[0]? }, q) :=
  initDevice_selects_max insertionSortBy insertionSortBy_spec scenarioDriver
    (freshTemplate true)
    ({ freshTemplate true with mPhisicalDevice := some 0 },
      { queueFamilyIndex := 1, queueCount := 1 }) rfl

/-- C4: when the device list is not empty and no device has a queue family with the
graphics bit, every device scores 0 and `initDevice` fails with
"No suitable GPU device found", whatever the class and tessellation feature of the
devices. This holds for every `std::sort` meeting the standard's contract. -/
theorem initDevice_no_graphics_fails
    (sort : (VkPhysicalDevice → VkPhysicalDevice → Bool) →
      List VkPhysicalDevice → List VkPhysicalDevice)
    (hsort : StdSortSpec sort) (drv : Driver) (self : Template)
    (hne : enumerateDevices drv ≠ [])
    (hall : ∀ d ∈ enumerateDevices drv, ∀ f ∈ enumerateQueueFamilyProperties drv d,
      f.queueFlags &&& VK_QUEUE_GRAPHICS_BIT = 0) :
    (∀ d ∈ enumerateDevices drv, deviceScore drv d = 0) ∧
    initDevice sort drv self = Except.error "No suitable GPU device found" := by
  have hzero : ∀ d ∈ enumerateDevices drv, deviceScore drv d = 0 := by
    intro d hd
    rw [deviceScore_eq]
    exact if_pos (hall d hd)
  refine ⟨hzero, ?_⟩
  obtain ⟨first, rest, hs⟩ := hsort.ne_nil (scoreGreater drv) (scoreGreater_strictWeak drv)
    drv.vkEnumeratePhysicalDevices hne
  obtain ⟨hmem, _⟩ := sorted_first_max sort hsort drv first rest hs
  rw [initDevice_of_sorted sort drv self first rest hne hs, if_pos (hzero first hmem)]

/-- Witness for C4: a single discrete GPU with tessellation and only a compute queue family
scores 0 and selection fails. -/
theorem initDevice_no_graphics_fails_witness :
    (∀ d ∈ enumerateDevices noGraphicsDriver, deviceScore noGraphicsDriver d = 0) ∧
    initDevice insertionSortBy noGraphicsDriver (freshTemplate true) =
      Except.error "No suitable GPU device found" :=
  initDevice_no_graphics_fails insertionSortBy insertionSortBy_spec noGraphicsDriver
    (freshTemplate true) (by decide) (by decide)

/-- C5: when the device list holds a discrete or integrated GPU that has a queue family with
the graphics bit, `initDevice` succeeds (so it does not fail with
"No suitable GPU device found") and the device it selects has a non-zero score. This holds
for every `std::sort` meeting the standard's contract. -/
theorem initDevice_suitable_succeeds
    (sort : (VkPhysicalDevice → VkPhysicalDevice → Bool) →
      List VkPhysicalDevice → List VkPhysicalDevice)
    (hsort : StdSortSpec sort) (drv : Driver) (self : Template)
    (hex : ∃ d ∈ enumerateDevices drv,
      ((drv.vkGetPhysicalDeviceProperties d).deviceType =
          VkPhysicalDeviceType.VK_PHYSICAL_DEVICE_TYPE_DISCRETE_GPU ∨
        (drv.vkGetPhysicalDeviceProperties d).deviceType =
          VkPhysicalDeviceType.VK_PHYSICAL_DEVICE_TYPE_INTEGRATED_GPU) ∧
      ∃ f ∈ enumerateQueueFamilyProperties drv d,
        f.queueFlags &&& VK_QUEUE_GRAPHICS_BIT ≠ 0) :
    ∃ d q, initDevice sort drv self = Except.ok ({ self with mPhisicalDevice := some d }, q) ∧
      initDevice sort drv self ≠ Except.error "No suitable GPU device found" ∧
      d ∈ enumerateDevices drv ∧ deviceScore drv d ≠ 0 := by
  obtain ⟨d, hd, hclass, f, hf, hbit⟩ := hex
  have hd0 : deviceScore drv d ≠ 0 := by
    rw [deviceScore_eq]
    have hng : ¬ ∀ f ∈ drv.vkGetPhysicalDeviceQueueFamilyProperties d,
        f.queueFlags &&& VK_QUEUE_GRAPHICS_BIT = 0 := fun hall => hbit (hall f hf)
    rw [if_neg hng]
    rcases hclass with hc | hc <;> rw [hc] <;>
      by_cases ht : (drv.vkGetPhysicalDeviceFeatures d).tessellationShader = 0 <;> simp [ht]
  obtain ⟨first, rest, _, hmem, _, hpos, hrun⟩ :=
    initDevice_accepts sort hsort drv self ⟨d, hd, hd0⟩
  refine ⟨first, _, hrun, ?_, hmem, ne_of_gt hpos⟩
  rw [hrun]
  exact fun hcontra => by cases hcontra

/-- Witness for C5: the scenario list, whose device 1 is a discrete GPU with a graphics
queue family. -/
theorem initDevice_suitable_succeeds_witness :
    ∃ d q, initDevice insertionSortBy scenarioDriver (freshTemplate false) =
        Except.ok ({ freshTemplate false with mPhisicalDevice := some d }, q) ∧
      initDevice insertionSortBy scenarioDriver (freshTemplate false) ≠
        Except.error "No suitable GPU device found" ∧
      d ∈ enumerateDevices scenarioDriver ∧ deviceScore scenarioDriver d ≠ 0 :=
  initDevice_suitable_succeeds insertionSortBy insertionSortBy_spec scenarioDriver
    (freshTemplate false)
    ⟨1, by decide, Or.inl (by decide), graphicsComputeFamily, by decide, by decide⟩

/-- C7: whenever `initDevice` accepts a device, the queue family index it computes for that
device is strictly less than the number of queue families of the selected device and names a
family whose flags contain the graphics bit; it is never the end position. This holds for
every sort function. -/
theorem initDevice_queueFamilyIndex_valid
    (sort : (VkPhysicalDevice → VkPhysicalDevice → Bool) →
      List VkPhysicalDevice → List VkPhysicalDevice)
    (drv : Driver) (self : Template) (r : Template × VkDeviceQueueCreateInfo)
    (h : initDevice sort drv self = Except.ok r) :
    ∃ d, r.1.mPhisicalDevice = some d ∧
      r.2.queueFamilyIndex = findGPUQueue (enumerateQueueFamilyProperties drv d) ∧
      r.2.queueFamilyIndex < (enumerateQueueFamilyProperties drv d).length ∧
      ∃ f, (enumerateQueueFamilyProperties drv d)[r.2.queueFamilyIndex]? = some f ∧
        f.queueFlags &&& VK_QUEUE_GRAPHICS_BIT ≠ 0 := by
  obtain ⟨first, rest, _, h0, rfl⟩ := initDevice_ok_inv sort drv self r h
  have hlt : findGPUQueue (drv.vkGetPhysicalDeviceQueueFamilyProperties first) <
      (drv.vkGetPhysicalDeviceQueueFamilyProperties first).length := by
    have hle := find_if_le_length isGraphicsFamily
      (drv.vkGetPhysicalDeviceQueueFamilyProperties first)
    have hneq : findGPUQueue (drv.vkGetPhysicalDeviceQueueFamilyProperties first) ≠
        (drv.vkGetPhysicalDeviceQueueFamilyProperties first).length := by
      intro heq
      apply h0
      unfold deviceScore
      simp [enumerateQueueFamilyProperties, heq]
    unfold findGPUQueue at hneq ⊢
    omega
  obtain ⟨f, hf, hp⟩ := find_if_at isGraphicsFamily
    (drv.vkGetPhysicalDeviceQueueFamilyProperties first) hlt
  exact ⟨first, rfl, rfl, hlt, f, hf, (isGraphicsFamily_eq_true f).1 hp⟩

/-- Witness for C7: in the scenario list the selected device 0 has families
`[compute-only, graphics|compute]` and the computed index is 1. -/
theorem initDevice_queueFamilyIndex_valid_witness :
    ∃ d, (({ freshTemplate true with mPhisicalDevice := some 0 },
        { queueFamilyIndex := 1, queueCount := 1 }) :
        Template × VkDeviceQueueCreateInfo).1.mPhisicalDevice = some d ∧
      (1 : Nat) = findGPUQueue (enumerateQueueFamilyProperties scenarioDriver d) ∧
      1 < (enumerateQueueFamilyProperties scenarioDriver d).length ∧
      ∃ f, (enumerateQueueFamilyProperties scenarioDriver d)[1]? = some f ∧
        f.queueFlags &&& VK_QUEUE_GRAPHICS_BIT ≠ 0 :=
  initDevice_queueFamilyIndex_valid insertionSortBy scenarioDriver (freshTemplate true)
    ({ freshTemplate true with mPhisicalDevice := some 0 },
      { queueFamilyIndex := 1, queueCount := 1 }) rfl

/-! ## Order of equivalent elements -/

theorem IsStrictWeakOrdering.equiv_not_before {α : Type} {comp : α → α → Bool}
    (h : IsStrictWeakOrdering comp) (x a b : α)
    (ha : (!comp x a && !comp a x) = true) (hb : (!comp x b && !comp b x) = true) :
    comp b a = false := by
  simp only [Bool.and_eq_true, Bool.not_eq_true'] at ha hb
  exact (h.incomp_trans a x b ha.2 ha.1 hb.1 hb.2).2

theorem filter_orderedInsert_equiv {α : Type} (comp : α → α → Bool)
    (h : IsStrictWeakOrdering comp) (x a : α) (l : List α) :
    (List.orderedInsert (fun a b => comp b a = false) a l).filter
        (fun y => !comp x y && !comp y x) =
      (a :: l).filter (fun y => !comp x y && !comp y x) := by
  induction l with
  | nil => rfl
  | cons b l ih =>
    by_cases hab : comp b a = false
    · simp only [List.orderedInsert, hab, if_true]
    · have hab' : comp b a = true := by simpa using hab
      have hoi : List.orderedInsert (fun a b => comp b a = false) a (b :: l) =
          b :: List.orderedInsert (fun a b => comp b a = false) a l := by
        simp [List.orderedInsert, hab']
      rw [hoi, List.filter_cons, ih]
      by_cases hpa : (!comp x a && !comp a x) = true
      · have hpb : ¬ (!comp x b && !comp b x) = true := by
          intro hpb
          have := h.equiv_not_before x a b hpa hpb
          rw [hab'] at this
          exact Bool.false_ne_true this.symm
        simp [List.filter_cons, hpa, hpb]
      · by_cases hpb : (!comp x b && !comp b x) = true
        · simp [List.filter_cons, hpa, hpb]
        · simp [List.filter_cons, hpa, hpb]

theorem insertionSortBy_keepsEquivalentOrder {α : Type} :
    KeepsEquivalentOrder (insertionSortBy (α := α)) := by
  intro comp l x h
  unfold insertionSortBy
  induction l with
  | nil => rfl
  | cons a l ih =>
    rw [List.insertionSort, filter_orderedInsert_equiv comp h x a, List.filter_cons,
      List.filter_cons, ih]

theorem scoreGreater_equiv (drv : Driver) (x y : VkPhysicalDevice) :
    (!scoreGreater drv x y && !scoreGreater drv y x) =
      (deviceScore drv y == deviceScore drv x) := by
  rw [Bool.eq_iff_iff]
  simp only [Bool.and_eq_true, Bool.not_eq_true', scoreGreater_eq_false, beq_iff_eq]
  constructor
  · rintro ⟨h1, h2⟩
    omega
  · intro h
    omega

/-- With a sort that keeps equivalent elements in input order, the first element of the
sorted device vector is the earliest enumerated device having its score. -/
theorem sorted_first_earliest
    (sort : (VkPhysicalDevice → VkPhysicalDevice → Bool) →
      List VkPhysicalDevice → List VkPhysicalDevice)
    (hkeep : KeepsEquivalentOrder sort) (drv : Driver) (first : VkPhysicalDevice)
    (rest : List VkPhysicalDevice)
    (hs : sort (scoreGreater drv) drv.vkEnumeratePhysicalDevices = first :: rest) :
    drv.vkEnumeratePhysicalDevices.find?
      (fun d => deviceScore drv d == deviceScore drv first) = some first := by
  have hk := hkeep (scoreGreater drv) drv.vkEnumeratePhysicalDevices first
    (scoreGreater_strictWeak drv)
  rw [hs] at hk
  have hfun : (fun y => !scoreGreater drv first y && !scoreGreater drv y first) =
      (fun d => deviceScore drv d == deviceScore drv first) :=
    funext (fun y => scoreGreater_equiv drv first y)
  rw [hfun] at hk
  rw [← List.filter_head?, ← hk]
  simp

/-- C3 (as amended): when the maximal score `m` of the device list is not 0 and is reached by
some candidates (two or more in particular), `initDevice` succeeds and selects one of the
candidates of score `m`, for every `std::sort` meeting the standard's contract; the selected
device is the earliest candidate of score `m` in enumeration order when the sort keeps
equivalent elements in input order. -/
theorem initDevice_tie_break
    (sort : (VkPhysicalDevice → VkPhysicalDevice → Bool) →
      List VkPhysicalDevice → List VkPhysicalDevice)
    (hsort : StdSortSpec sort) (drv : Driver) (self : Template) (m : Int)
    (hpos : m ≠ 0)
    (hreach : ∃ d ∈ enumerateDevices drv, deviceScore drv d = m)
    (hmax : ∀ d ∈ enumerateDevices drv, deviceScore drv d ≤ m) :
    ∃ d q, initDevice sort drv self = Except.ok ({ self with mPhisicalDevice := some d }, q) ∧
      d ∈ enumerateDevices drv ∧ deviceScore drv d = m ∧
      (KeepsEquivalentOrder sort →
        (enumerateDevices drv).find? (fun d' => deviceScore drv d' == m) = some d) := by
  obtain ⟨d0, hd0, hd0m⟩ := hreach
  obtain ⟨first, rest, hs, hmem, hfmax, _, hrun⟩ :=
    initDevice_accepts sort hsort drv self ⟨d0, hd0, by rw [hd0m]; exact hpos⟩
  have hfm : deviceScore drv first = m := by
    have h1 := hfmax d0 hd0
    have h2 := hmax first hmem
    omega
  refine ⟨first, _, hrun, hmem, hfm, fun hkeep => ?_⟩
  have := sorted_first_earliest sort hkeep drv first rest hs
  rw [hfm] at this
  exact this

/-- Witness for C3 (as amended): devices 0, 1, 2 of scores 0, 1000, 1000 with an insertion
sort, which keeps equivalent elements in input order: device 1 is selected. -/
theorem initDevice_tie_break_witness :
    ∃ d q, initDevice insertionSortBy lateTieDriver (freshTemplate false) =
        Except.ok ({ freshTemplate false with mPhisicalDevice := some d }, q) ∧
      d ∈ enumerateDevices lateTieDriver ∧ deviceScore lateTieDriver d = 1000 ∧
      (enumerateDevices lateTieDriver).find?
        (fun d' => deviceScore lateTieDriver d' == 1000) = some d := by
  obtain ⟨d, q, h1, h2, h3, h4⟩ :=
    initDevice_tie_break insertionSortBy insertionSortBy_spec lateTieDriver
      (freshTemplate false) 1000 (by decide) ⟨1, by decide, by decide⟩ (by decide)
  exact ⟨d, q, h1, h2, h3, h4 insertionSortBy_keepsEquivalentOrder⟩

/-- C3 (counterexample): on the seventeen devices of `seventeenDriver`, devices 0 and 1
share the maximal score 1000 and device 0 is the earliest of them; the `std::sort` of
libstdc++ returns a permutation ordered by descending score that starts with device 1, and
`initDevice` selects device 1. -/
theorem initDevice_tie_break_not_stable :
    enumerateDevices seventeenDriver =
      [0, 1, 2, 3, 4, 5, 6, 7, 8, 9, 10, 11, 12, 13, 14, 15, 16] ∧
    (enumerateDevices seventeenDriver).map (deviceScore seventeenDriver) =
      [1000, 1000, 0, 0, 0, 0, 0, 0, 0, 0, 0, 0, 0, 0, 0, 0, 0] ∧
    (enumerateDevices seventeenDriver).find?
      (fun d => deviceScore seventeenDriver d == 1000) = some 0 ∧
    std_sort (scoreGreater seventeenDriver) (enumerateDevices seventeenDriver) =
      some [1, 0, 16, 15, 14, 13, 12, 11, 10, 9, 8, 7, 6, 5, 4, 3, 2] ∧
    (libstdcxxSort (scoreGreater seventeenDriver) (enumerateDevices seventeenDriver)).Perm
      (enumerateDevices seventeenDriver) ∧
    (libstdcxxSort (scoreGreater seventeenDriver) (enumerateDevices seventeenDriver)).Pairwise
      (fun a b => scoreGreater seventeenDriver b a = false) ∧
    initDevice libstdcxxSort seventeenDriver (freshTemplate false) =
      Except.ok ({ freshTemplate false with mPhisicalDevice := some 1 },
        { queueFamilyIndex := 0, queueCount := 1 }) :=
  ⟨by rfl, by decide, by decide, by rfl, by decide, by decide, by rfl⟩

/-! ## Layers and instance creation -/

theorem strcmp_self (s : List Char) : strcmp s s = 0 := by
  induction s with
  | nil => rfl
  | cons a s ih => simp [strcmp, ih]

theorem isLayerSupport_eq_true_iff (drv : Driver) (requestedLayer : String) :
    isLayerSupport drv requestedLayer = true ↔
      ∃ layer ∈ enumerateVulkanLayers drv,
        strcmp requestedLayer.toList layer.layerName.toList ≠ 0 := by
  unfold isLayerSupport
  simp only [bne_iff_ne, ne_eq, find_if_eq_length_iff]
  simp

/-- C10 (what the code does): `isLayerSupport` returns true exactly when some listed layer
has a name for which `strcmp` with the requested name is not 0, that is a name that differs.
With the requested layer as the only listed layer it returns false, and with one other layer
listed it returns true. -/
theorem isLayerSupport_inverted (drv : Driver) (requestedLayer : String) :
    (isLayerSupport drv requestedLayer = true ↔
      ∃ layer ∈ enumerateVulkanLayers drv,
        strcmp requestedLayer.toList layer.layerName.toList ≠ 0) ∧
    ((∀ layer ∈ enumerateVulkanLayers drv, layer.layerName = requestedLayer) →
      isLayerSupport drv requestedLayer = false) ∧
    isLayerSupport (layersDriver ["VK_LAYER_KHRONOS_validation"])
      "VK_LAYER_KHRONOS_validation" = false ∧
    isLayerSupport (layersDriver ["VK_LAYER_LUNARG_api_dump"])
      "VK_LAYER_KHRONOS_validation" = true := by
  refine ⟨isLayerSupport_eq_true_iff drv requestedLayer, ?_, by rfl, by rfl⟩
  intro hall
  rw [← Bool.not_eq_true, isLayerSupport_eq_true_iff]
  rintro ⟨layer, hmem, hne⟩
  rw [hall layer hmem] at hne
  exact hne (strcmp_self _)

/-- C9 (what the code does): with the validation layer as the only supported layer and the
debug flag set, `getWindowsRequiredExtensions` appends nothing; with the validation layer
absent and another layer supported it appends the debug-utils extension; and with the
validation layer supported next to another layer it appends the extension although the debug
flag is not set. -/
theorem getWindowsRequiredExtensions_diverges :
    getWindowsRequiredExtensions (layersDriver ["VK_LAYER_KHRONOS_validation"])
      (freshTemplate true) = ["VK_KHR_surface"] ∧
    getWindowsRequiredExtensions (layersDriver ["VK_LAYER_LUNARG_api_dump"])
      (freshTemplate true) = ["VK_KHR_surface", "VK_EXT_debug_utils"] ∧
    getWindowsRequiredExtensions
      (layersDriver ["VK_LAYER_KHRONOS_validation", "VK_LAYER_LUNARG_api_dump"])
      (freshTemplate false) = ["VK_KHR_surface", "VK_EXT_debug_utils"] :=
  ⟨by rfl, by rfl, by rfl⟩

/-- C8 (what the code does): with the debug flag set and `VK_LAYER_LUNARG_api_dump` as the
only supported layer, `initVulkanInstance` requests the validation layer
(`enabledLayerCount` is 1), and with a loader that rejects unknown layers the constructor
fails with "Unable to create the Vulkan instance"; with no supported layer at all the
constructor still runs `setupDebugMessenger` and attaches the messenger. -/
theorem initVulkanInstance_requests_missing_layer :
    (instanceCreateInfo (layersDriver ["VK_LAYER_LUNARG_api_dump"])
      (freshTemplate true)).enabledLayerCount = 1 ∧
    (instanceCreateInfo (layersDriver ["VK_LAYER_LUNARG_api_dump"])
      (freshTemplate true)).ppEnabledLayerNames = some ["VK_LAYER_KHRONOS_validation"] ∧
    construct insertionSortBy (strictLayersDriver ["VK_LAYER_LUNARG_api_dump"])
      "template" true = Except.error "Unable to create the Vulkan instance" ∧
    (instanceCreateInfo (layersDriver []) (freshTemplate true)).enabledLayerCount = 0 ∧
    construct insertionSortBy (layersDriver []) "template" true =
      Except.ok
        ({ mTitle := "template", mDebug := true, mVulkan := true, mDebugMessenger := true,
           mPhisicalDevice := some 0 },
         { queueFamilyIndex := 1, queueCount := 1 }) :=
  ⟨by rfl, by rfl, by rfl, by rfl, by rfl⟩

end VulkanTutorial
